import Mathlib

/-!
Shallow embedding of `src/app.py` (Advanced Test Estimator).

The source is a Streamlit app whose core is:
  * configuration data: `SUBSTEP_CONFIG`, `DEFAULT_MULTS`, `COMPLEX_MULTS`,
    `EXECUTION_SUBSTEPS`, `ATP_SUBSTEPS`, `PROJECT_STEPS`;
  * the pure helper `calculate_hours(config, num_samples, complexity)`;
  * the main loop accumulating `total_hours` over the selected steps and
    their selected substeps.

Python dicts keyed by strings are embedded as association lists
`List (String × ℚ)`; a missing key on `dict[key]` (Python `KeyError`)
becomes `Option.none`, and `dict.get(key, default)` becomes an `Option`
field resolved with `Option.getD` / `Option.orElse`.  Python floats are
embedded as exact rationals (every numeric literal in the source is a
small decimal).  `num_samples` is an integer (the sidebar widget uses
`step=1`).
-/

/-- A Python dict from complexity labels to multipliers, in insertion order. -/
abbrev MultTable := List (String × ℚ)

/-- One configuration dict of the source: a step entry of `PROJECT_STEPS`
uses the keys `base` / `per_sample` / `multipliers` / `substeps`, while
`SUBSTEP_CONFIG` uses `base_hours` / `hours_per_sample` /
`complexity_multipliers`.  A field is `none` when the key is absent from
the dict; `substeps := none` also stands for Python `"substeps": None`
(both are falsy and skip the substep block). -/
structure Config where
  base : Option ℚ := none
  base_hours : Option ℚ := none
  per_sample : Option ℚ := none
  hours_per_sample : Option ℚ := none
  multipliers : Option MultTable := none
  complexity_multipliers : Option MultTable := none
  substeps : Option (List String) := none
deriving DecidableEq

/-- Source line 38: default multipliers, `1.0` for each tier (no effect). -/
def DEFAULT_MULTS : MultTable :=
  [("Easy", 1.0), ("Medium", 1.0), ("High", 1.0)]

/-- Source line 40: multipliers for complexity-sensitive steps. -/
def COMPLEX_MULTS : MultTable :=
  [("Easy", 1.0), ("Medium", 1.2), ("High", 1.5)]

/-- Source lines 9-17: the shared substep configuration. -/
def SUBSTEP_CONFIG : Config :=
  { base_hours := some 0.0
    hours_per_sample := some 0.5
    complexity_multipliers := some [("Easy", 1.0), ("Medium", 1.25), ("High", 1.5)] }

/-- Source lines 20-23: substep list of the "Test Execution" step. -/
def EXECUTION_SUBSTEPS : List String :=
  ["Thermal Cycling/Thermal Shock", "Vibration", "Fluid Susceptibility",
   "Salt Fog", "Seal Integrity", "Discontinuity Monitoring System"]

/-- Source lines 25-28: substep list of the "Pre-ATP" and "Post-ATP" steps. -/
def ATP_SUBSTEPS : List String :=
  ["Visual Inspection", "Partial Discharge", "Insulation Resistance",
   "Dielectric Withstanding Voltage", "Electrical Bonding Resistance", "Tear Down Inspection"]

/-- Source lines 76-79: the "Test Execution" step's configuration dict. -/
def TEST_EXECUTION_CONFIG : Config :=
  { base := some 2.0, per_sample := some 0.0, multipliers := some COMPLEX_MULTS,
    substeps := some EXECUTION_SUBSTEPS }

/-- Source lines 55-57: the "NDA" step's configuration dict. -/
def NDA_CONFIG : Config :=
  { base := some 1.0, per_sample := some 0.0, multipliers := some DEFAULT_MULTS,
    substeps := none }

/-- Source lines 42-89: the master step configuration, in the dict's
insertion order (Python dicts iterate in insertion order). -/
def PROJECT_STEPS : List (String × Config) :=
  [("Conformity Delegation",
    { base := some 2.0, per_sample := some 0.0, multipliers := some DEFAULT_MULTS, substeps := none }),
   ("Creation of UUT",
    { base := some 2.0, per_sample := some 1.0, multipliers := some COMPLEX_MULTS, substeps := none }),
   ("Creation of Test Plan",
    { base := some 4.0, per_sample := some 0.0, multipliers := some COMPLEX_MULTS, substeps := none }),
   ("Test Facility Selection",
    { base := some 2.0, per_sample := some 0.0, multipliers := some DEFAULT_MULTS, substeps := none }),
   ("NDA", NDA_CONFIG),
   ("Subcontract",
    { base := some 2.0, per_sample := some 0.0, multipliers := some DEFAULT_MULTS, substeps := none }),
   ("TRR 1",
    { base := some 3.0, per_sample := some 0.0, multipliers := some DEFAULT_MULTS, substeps := none }),
   ("UUT Conformity",
    { base := some 1.0, per_sample := some 0.5, multipliers := some DEFAULT_MULTS, substeps := none }),
   ("Pre-ATP",
    { base := some 1.0, per_sample := some 0.0, multipliers := some COMPLEX_MULTS, substeps := some ATP_SUBSTEPS }),
   ("Test Set-up",
    { base := some 4.0, per_sample := some 0.0, multipliers := some COMPLEX_MULTS, substeps := none }),
   ("TRR 2",
    { base := some 2.0, per_sample := some 0.0, multipliers := some DEFAULT_MULTS, substeps := none }),
   ("Test Execution", TEST_EXECUTION_CONFIG),
   ("Post-ATP",
    { base := some 1.0, per_sample := some 0.0, multipliers := some COMPLEX_MULTS, substeps := some ATP_SUBSTEPS }),
   ("Test Reporting",
    { base := some 4.0, per_sample := some 1.0, multipliers := some DEFAULT_MULTS, substeps := none }),
   ("Archiving",
    { base := some 1.0, per_sample := some 0.0, multipliers := some DEFAULT_MULTS, substeps := none })]

/-- Source line 97: `config.get("base", config.get("base_hours", 0))`. -/
def cfgBase (config : Config) : ℚ :=
  (config.base.orElse fun _ => config.base_hours).getD 0

/-- Source line 98: `config.get("per_sample", config.get("hours_per_sample", 0))`. -/
def cfgPerSample (config : Config) : ℚ :=
  (config.per_sample.orElse fun _ => config.hours_per_sample).getD 0

/-- Source line 99:
`config.get("multipliers", config.get("complexity_multipliers", DEFAULT_MULTS))`. -/
def cfgMults (config : Config) : MultTable :=
  (config.multipliers.orElse fun _ => config.complexity_multipliers).getD DEFAULT_MULTS

/-- Source lines 95-104, `calculate_hours`: the result is
`(base + per_sample * num_samples) * multipliers[complexity]`, and `none`
when the complexity key is missing from the multiplier dict (Python raises
`KeyError` at `multipliers[complexity]`). -/
def calculate_hours (config : Config) (num_samples : ℤ) (complexity : String) : Option ℚ :=
  let base := cfgBase config
  let per_sample := cfgPerSample config
  let multipliers := cfgMults config
  match multipliers.lookup complexity with
  | some m => some ((base + per_sample * (num_samples : ℚ)) * m)
  | none => none

/-- Source lines 143-148: the multiselect widget offers `config["substeps"]`
as options, so its value is the sublist of the step's substep list that the
user has selected; the whole block is skipped when `config["substeps"]` is
falsy (Python `None` or the empty list). -/
def selected_substeps (config : Config) (chosen : List String) : List String :=
  match config.substeps with
  | none => []
  | some l => if l = [] then [] else l.filter (fun s => chosen.contains s)

/-- Source lines 152-154: the loop `for sub in selected_subs` adds
`calculate_hours(SUBSTEP_CONFIG, num_samples, complexity)` to the running
total once per selected substep. -/
def substep_accum (subs : List String) (n : ℤ) (c : String) (acc : ℚ) : Option ℚ :=
  match subs with
  | [] => some acc
  | _ :: rest =>
    match calculate_hours SUBSTEP_CONFIG n c with
    | some sub_cost => substep_accum rest n c (acc + sub_cost)
    | none => none

/-- Source lines 128-155, body of the main loop for one step `p`:
`estimated_step_cost = calculate_hours(config, ...)` is computed for every
step (selected or not, for display); a selected step contributes that cost
plus one shared-formula cost per selected substep, an unselected step
contributes `0`. -/
def step_total (selectedSteps : List String) (subSel : String → List String)
    (n : ℤ) (c : String) (p : String × Config) : Option ℚ :=
  match calculate_hours p.2 n c with
  | none => none
  | some est =>
    if p.1 ∈ selectedSteps then
      substep_accum (selected_substeps p.2 (subSel p.1)) n c est
    else
      some 0

/-- The main loop of source lines 125-155 over an arbitrary step list:
`total_hours` starts at `0.0` and accumulates every step's contribution in
list order; a `KeyError` anywhere aborts the computation (`none`). -/
def total_hours_over (steps : List (String × Config)) (selectedSteps : List String)
    (subSel : String → List String) (n : ℤ) (c : String) : Option ℚ :=
  match steps with
  | [] => some 0
  | p :: rest =>
    match step_total selectedSteps subSel n c p with
    | none => none
    | some v =>
      match total_hours_over rest selectedSteps subSel n c with
      | none => none
      | some t => some (v + t)

/-- The final value of the source's `total_hours` accumulator: the main loop
run over `PROJECT_STEPS` with the given selection state, sample count and
complexity. -/
def total_hours (selectedSteps : List String) (subSel : String → List String)
    (n : ℤ) (c : String) : Option ℚ :=
  total_hours_over PROJECT_STEPS selectedSteps subSel n c

/-- Source line 117: the complexity selectbox offers exactly these options. -/
def TIERS : List String := ["Easy", "Medium", "High"]

/-- Source line 116: the sample-count widget has `min_value=1, step=1`, so
the value it hands to the computation is an integer of at least 1. -/
def num_samples_input (x : ℤ) : ℤ := max x 1

/-- A step-style configuration dict carrying exactly the keys `base`,
`per_sample`, `multipliers` and `substeps` — the shape of every entry of
`PROJECT_STEPS` and of the spec's CostFormula record. -/
def stepConfig (b p : ℚ) (tbl : MultTable) (ss : Option (List String)) : Config :=
  { base := some b, per_sample := some p, multipliers := some tbl, substeps := ss }

/-! Helper lemmas about `calculate_hours` -/

/-- When the complexity key is present, `calculate_hours` returns the formula
value for the resolved configuration fields. -/
theorem calculate_hours_eq (config : Config) (n : ℤ) (c : String) (m : ℚ)
    (hm : (cfgMults config).lookup c = some m) :
    calculate_hours config n c
      = some ((cfgBase config + cfgPerSample config * (n : ℚ)) * m) := by
  simp [calculate_hours, hm]

/-- When the complexity key is missing, `calculate_hours` fails. -/
theorem calculate_hours_none (config : Config) (n : ℤ) (c : String)
    (hm : (cfgMults config).lookup c = none) :
    calculate_hours config n c = none := by
  simp [calculate_hours, hm]

/-- Success of `calculate_hours` follows from success of the multiplier lookup. -/
theorem calculate_hours_isSome (config : Config) (n : ℤ) (c : String)
    (h : ((cfgMults config).lookup c).isSome) :
    (calculate_hours config n c).isSome := by
  obtain ⟨m, hm⟩ := Option.isSome_iff_exists.mp h
  simp [calculate_hours_eq config n c m hm]

/-- A successful association-list lookup returns a pair of the list. -/
theorem mem_of_lookup_some {tbl : MultTable} {c : String} {m : ℚ}
    (h : tbl.lookup c = some m) : (c, m) ∈ tbl := by
  induction tbl with
  | nil => simp [List.lookup] at h
  | cons q rest ih =>
    rw [List.lookup] at h
    split at h
    · next heq =>
      have hc : c = q.1 := by simpa using heq
      have hm : q.2 = m := by simpa using h
      subst hc
      rw [← hm]
      exact List.mem_cons_self _ _
    · next => exact List.mem_cons_of_mem _ (ih h)

/-- Every multiplier table shipped with the program (each step's resolved
table and the substep table) has an entry for each of the three tiers. -/
theorem shipped_lookup_isSome : ∀ c ∈ TIERS,
    (∀ p ∈ PROJECT_STEPS, ((cfgMults p.2).lookup c).isSome) ∧
      ((cfgMults SUBSTEP_CONFIG).lookup c).isSome := by decide

/-! Theorems for the claims about `calculate_hours` -/

/-- C2: for every cost formula (base, per-sample, multiplier table), every
positive integer sample count and every tier among the three whose
multiplier entry is `m`, `calculate_hours` returns exactly
`(base + perSample * n) * m`. -/
theorem calculate_hours_formula (b p : ℚ) (tbl : MultTable) (ss : Option (List String))
    (n : ℤ) (c : String) (m : ℚ) (hn : 0 < n) (hc : c ∈ TIERS)
    (hm : tbl.lookup c = some m) :
    calculate_hours (stepConfig b p tbl ss) n c = some ((b + p * (n : ℚ)) * m) := by
  simpa [stepConfig, cfgBase, cfgPerSample, cfgMults, Option.orElse] using
    calculate_hours_eq (stepConfig b p tbl ss) n c m hm

/-- C2 witness: scenario B of the spec, step "Creation of UUT" at 3 samples,
complexity High: (2 + 1*3) * 1.5 = 7.5 hours. -/
theorem calculate_hours_formula_witness :
    calculate_hours (stepConfig 2.0 1.0 COMPLEX_MULTS none) 3 "High"
      = some ((2.0 + 1.0 * ((3 : ℤ) : ℚ)) * 1.5) :=
  calculate_hours_formula 2.0 1.0 COMPLEX_MULTS none 3 "High" 1.5
    (by decide) (by decide) (by simp [COMPLEX_MULTS, List.lookup])

/-- C3 counterexample: `calculate_hours` called with the non-positive sample
count 0 does not fail; on the "NDA" step configuration it returns the
numeric result 1. -/
theorem calculate_hours_accepts_nonpositive_samples :
    calculate_hours NDA_CONFIG 0 "Medium" = some 1 := by
  simp [calculate_hours, cfgBase, cfgPerSample, cfgMults, NDA_CONFIG,
    DEFAULT_MULTS, Option.orElse, List.lookup]
  norm_num

/-- C3 amended: `calculate_hours` performs no validation of the sample
count; for a non-positive `n` it still returns
`(base + perSample * n) * multiplier` whenever the tier lookup succeeds
(rejection of non-positive counts happens only at the input widget, which
enforces a minimum of 1). -/
theorem calculate_hours_no_sample_validation (config : Config) (n : ℤ) (c : String) (m : ℚ)
    (hn : n ≤ 0) (hm : (cfgMults config).lookup c = some m) :
    calculate_hours config n c
      = some ((cfgBase config + cfgPerSample config * (n : ℚ)) * m) :=
  calculate_hours_eq config n c m hm

/-- C3 amended witness: the substep formula at sample count -2, complexity
High, still yields a (negative) numeric result. -/
theorem calculate_hours_no_sample_validation_witness :
    calculate_hours SUBSTEP_CONFIG (-2) "High"
      = some ((cfgBase SUBSTEP_CONFIG + cfgPerSample SUBSTEP_CONFIG * ((-2 : ℤ) : ℚ)) * 1.5) :=
  calculate_hours_no_sample_validation SUBSTEP_CONFIG (-2) "High" 1.5
    (by decide) (by simp [cfgMults, SUBSTEP_CONFIG, Option.orElse, List.lookup])

/-- C4: a formula whose multiplier table has no entry for the requested
complexity makes `calculate_hours` fail (`none`, the Python `KeyError`);
it never falls back to a default multiplier. -/
theorem calculate_hours_missing_tier_fails (b p : ℚ) (tbl : MultTable)
    (ss : Option (List String)) (n : ℤ) (c : String) (hn : 0 < n)
    (hm : tbl.lookup c = none) :
    calculate_hours (stepConfig b p tbl ss) n c = none := by
  simpa [stepConfig, cfgBase, cfgPerSample, cfgMults, Option.orElse] using
    calculate_hours_none (stepConfig b p tbl ss) n c hm

/-- C4 witness: the unrecognized tier "Extreme" makes `calculate_hours`
fail on a formula carrying the shipped `COMPLEX_MULTS` table. -/
theorem calculate_hours_missing_tier_fails_witness :
    calculate_hours (stepConfig 1.0 1.0 COMPLEX_MULTS none) 2 "Extreme" = none :=
  calculate_hours_missing_tier_fails 1.0 1.0 COMPLEX_MULTS none 2 "Extreme"
    (by decide) (by decide)

/-- C7: for a formula with positive per-sample hours and a positive
multiplier for the requested tier, `calculate_hours` is strictly monotone
in the sample count. -/
theorem calculate_hours_strict_mono_in_samples (b p m : ℚ) (tbl : MultTable)
    (ss : Option (List String)) (n1 n2 : ℤ) (c : String)
    (hp : 0 < p) (hm : tbl.lookup c = some m) (hmpos : 0 < m)
    (h1 : 0 < n1) (h12 : n1 < n2) :
    ∃ v1 v2,
      calculate_hours (stepConfig b p tbl ss) n1 c = some v1 ∧
      calculate_hours (stepConfig b p tbl ss) n2 c = some v2 ∧
      v1 < v2 := by
  refine ⟨(b + p * (n1 : ℚ)) * m, (b + p * (n2 : ℚ)) * m,
    calculate_hours_eq _ n1 c m hm, calculate_hours_eq _ n2 c m hm, ?_⟩
  have hcast : (n1 : ℚ) < (n2 : ℚ) := by exact_mod_cast h12
  exact mul_lt_mul_of_pos_right (add_lt_add_left ((mul_lt_mul_left hp).mpr hcast) b) hmpos

/-- C7 witness: the "UUT Conformity" formula (per-sample 0.5) at tier Easy
gives a strictly smaller cost for 1 sample than for 2. -/
theorem calculate_hours_strict_mono_in_samples_witness :
    ∃ v1 v2,
      calculate_hours (stepConfig 1.0 0.5 DEFAULT_MULTS none) 1 "Easy" = some v1 ∧
      calculate_hours (stepConfig 1.0 0.5 DEFAULT_MULTS none) 2 "Easy" = some v2 ∧
      v1 < v2 :=
  calculate_hours_strict_mono_in_samples 1.0 0.5 1.0 DEFAULT_MULTS none 1 2 "Easy"
    (by norm_num) (by simp [DEFAULT_MULTS, List.lookup]) (by norm_num)
    (by decide) (by decide)

/-! Theorems for the "Test Execution" scenario (claim C1) -/

/-- C1 counterexample: in the spec's scenario (step "Test Execution",
4 samples, complexity Medium, 2 of the 6 substeps selected), the code does
not give each substep 2.0 hours and the step 6.4 hours in total: the
substep formula's Medium multiplier is 1.25, not 1.0. -/
theorem testExecution_scenario_refuted :
    ¬ (calculate_hours SUBSTEP_CONFIG 4 "Medium" = some 2 ∧
       step_total ["Test Execution"] (fun _ => ["Thermal Cycling/Thermal Shock", "Vibration"]) 4
         "Medium" ("Test Execution", TEST_EXECUTION_CONFIG) = some (32/5)) := by
  rintro ⟨h1, -⟩
  have h2 : calculate_hours SUBSTEP_CONFIG 4 "Medium" = some 2.5 := by
    simp [calculate_hours, cfgBase, cfgPerSample, cfgMults, SUBSTEP_CONFIG,
      Option.orElse, List.lookup]
    norm_num
  rw [h1] at h2
  have : (2 : ℚ) = 2.5 := Option.some.inj h2
  norm_num at this

/-- C1 amended: in that scenario the step's base cost is (2.0+0)*1.2 = 2.4
hours, each selected substep costs (0 + 0.5*4)*1.25 = 2.5 hours, and the
step's total is 2.4 + 2*2.5 = 7.4 hours. -/
theorem testExecution_scenario_actual :
    calculate_hours TEST_EXECUTION_CONFIG 4 "Medium" = some 2.4 ∧
    calculate_hours SUBSTEP_CONFIG 4 "Medium" = some 2.5 ∧
    step_total ["Test Execution"] (fun _ => ["Thermal Cycling/Thermal Shock", "Vibration"]) 4
      "Medium" ("Test Execution", TEST_EXECUTION_CONFIG) = some 7.4 := by
  refine ⟨?_, ?_, ?_⟩
  · simp [calculate_hours, cfgBase, cfgPerSample, cfgMults, TEST_EXECUTION_CONFIG,
      COMPLEX_MULTS, Option.orElse, List.lookup]
    norm_num
  · simp [calculate_hours, cfgBase, cfgPerSample, cfgMults, SUBSTEP_CONFIG,
      Option.orElse, List.lookup]
    norm_num
  · simp [step_total, selected_substeps, substep_accum, calculate_hours, cfgBase, cfgPerSample,
      cfgMults, TEST_EXECUTION_CONFIG, SUBSTEP_CONFIG, COMPLEX_MULTS, EXECUTION_SUBSTEPS,
      List.lookup, List.filter, Option.orElse]
    norm_num

/-! Theorems about substep handling and aggregation -/

/-- C5: a step with no substeps (Python `None` or an empty list) contributes
exactly its own `calculate_hours` value, whatever substep selection is
passed for it; and more generally the step's contribution depends only on
which of its own substeps are selected — names outside `step.substeps`
are ignored and cause no failure. -/
theorem step_total_substep_hygiene :
    (∀ (config : Config) (name : String) (sel : List String) (subSel : String → List String)
        (n : ℤ) (c : String) (est : ℚ),
        (config.substeps = none ∨ config.substeps = some []) → name ∈ sel →
        calculate_hours config n c = some est →
        step_total sel subSel n c (name, config) = some est) ∧
    (∀ (config : Config) (name : String) (sel : List String)
        (sub1 sub2 : String → List String) (n : ℤ) (c : String),
        (∀ s ∈ config.substeps.getD [], (s ∈ sub1 name ↔ s ∈ sub2 name)) →
        step_total sel sub1 n c (name, config) = step_total sel sub2 n c (name, config)) := by
  constructor
  · rintro config name sel subSel n c est hss hname hcalc
    rcases hss with h | h <;>
      simp [step_total, hcalc, hname, selected_substeps, h, substep_accum]
  · rintro config name sel sub1 sub2 n c hiff
    have hsub : selected_substeps config (sub1 name) = selected_substeps config (sub2 name) := by
      cases h : config.substeps with
      | none => simp [selected_substeps, h]
      | some l =>
        by_cases hl : l = []
        · simp [selected_substeps, h, hl]
        · simp only [selected_substeps, h, if_neg hl]
          apply List.filter_congr
          intro a ha
          have hiffa : a ∈ sub1 name ↔ a ∈ sub2 name := hiff a (by simp [h, ha])
          show List.elem a (sub1 name) = List.elem a (sub2 name)
          by_cases hmem : a ∈ sub1 name
          · rw [List.elem_iff.mpr hmem, List.elem_iff.mpr (hiffa.mp hmem)]
          · have hmem2 : a ∉ sub2 name := fun hx => hmem (hiffa.mpr hx)
            have e1 : List.elem a (sub1 name) = false := by
              cases hb : List.elem a (sub1 name)
              · rfl
              · exact absurd (List.elem_iff.mp hb) hmem
            have e2 : List.elem a (sub2 name) = false := by
              cases hb : List.elem a (sub2 name)
              · rfl
              · exact absurd (List.elem_iff.mp hb) hmem2
            rw [e1, e2]
    simp [step_total, hsub]

/-- C5 witness: the substep-free "NDA" step ignores a stale substep
selection, and "Test Execution" gives the same cost whether or not a name
outside its substep list is present in the selection. -/
theorem step_total_substep_hygiene_witness :
    step_total ["NDA"] (fun _ => ["Stale Substep"]) 3 "Easy" ("NDA", NDA_CONFIG) = some 1 ∧
    step_total ["Test Execution"] (fun _ => ["Vibration", "Nonexistent Substep"]) 4 "Medium"
        ("Test Execution", TEST_EXECUTION_CONFIG)
      = step_total ["Test Execution"] (fun _ => ["Vibration"]) 4 "Medium"
        ("Test Execution", TEST_EXECUTION_CONFIG) :=
  ⟨step_total_substep_hygiene.1 NDA_CONFIG "NDA" ["NDA"] (fun _ => ["Stale Substep"]) 3 "Easy" 1
      (Or.inl rfl) (by decide)
      (by simp [calculate_hours, cfgBase, cfgPerSample, cfgMults, NDA_CONFIG, DEFAULT_MULTS,
            Option.orElse, List.lookup] <;> norm_num),
   step_total_substep_hygiene.2 TEST_EXECUTION_CONFIG "Test Execution" ["Test Execution"]
      (fun _ => ["Vibration", "Nonexistent Substep"]) (fun _ => ["Vibration"]) 4 "Medium"
      (by decide)⟩

/-- With nothing selected the main loop accumulates `0`, provided every
step's multiplier lookup succeeds (each display-only `calculate_hours`
call must not raise). -/
theorem total_hours_over_empty_selection (steps : List (String × Config))
    (subSel : String → List String) (n : ℤ) (c : String)
    (h : ∀ p ∈ steps, ((cfgMults p.2).lookup c).isSome) :
    total_hours_over steps [] subSel n c = some 0 := by
  induction steps with
  | nil => rfl
  | cons p rest ih =>
    obtain ⟨m, hm⟩ := Option.isSome_iff_exists.mp (h p (List.mem_cons_self p rest))
    have hcalc := calculate_hours_eq p.2 n c m hm
    have hrest := ih fun q hq => h q (List.mem_cons_of_mem _ hq)
    simp [total_hours_over, step_total, hcalc, hrest]

/-- C6: for every sample count, valid complexity tier and substep-selection
mapping, the total with an empty step selection is exactly 0. -/
theorem total_hours_empty_selection (subSel : String → List String) (n : ℤ) (c : String)
    (hc : c ∈ TIERS) : total_hours [] subSel n c = some 0 :=
  total_hours_over_empty_selection PROJECT_STEPS subSel n c
    (fun p hp => (shipped_lookup_isSome c hc).1 p hp)

/-- C6 witness: empty selection at 5 samples, complexity Medium. -/
theorem total_hours_empty_selection_witness :
    total_hours [] (fun _ => []) 5 "Medium" = some 0 :=
  total_hours_empty_selection (fun _ => []) 5 "Medium" (by decide)

/-- The accumulated total is invariant under permutation of the step list:
rational addition is associative and commutative, and a lookup failure in
one order is a lookup failure in any order. -/
theorem total_hours_over_perm (selectedSteps : List String) (subSel : String → List String)
    (n : ℤ) (c : String) {steps1 steps2 : List (String × Config)}
    (h : steps1.Perm steps2) :
    total_hours_over steps1 selectedSteps subSel n c
      = total_hours_over steps2 selectedSteps subSel n c := by
  induction h with
  | nil => rfl
  | cons x h ih => simp only [total_hours_over, ih]
  | swap x y l =>
    simp only [total_hours_over]
    cases step_total selectedSteps subSel n c x <;>
      cases step_total selectedSteps subSel n c y <;>
        cases total_hours_over l selectedSteps subSel n c <;>
          simp <;> ring
  | trans h1 h2 ih1 ih2 => exact ih1.trans ih2

/-- C8: running the main loop over any permutation of the step sequence
yields the same total as running it over `PROJECT_STEPS` itself, for every
selection, substep selection, sample count and complexity. -/
theorem total_hours_perm_invariant (steps : List (String × Config))
    (selectedSteps : List String) (subSel : String → List String) (n : ℤ) (c : String)
    (hperm : steps.Perm PROJECT_STEPS) :
    total_hours_over steps selectedSteps subSel n c = total_hours selectedSteps subSel n c :=
  total_hours_over_perm selectedSteps subSel n c hperm

/-- C8 witness: evaluating the steps in reversed order gives the same
total as the shipped order. -/
theorem total_hours_perm_invariant_witness :
    total_hours_over PROJECT_STEPS.reverse ["NDA", "Archiving"] (fun _ => []) 3 "Easy"
      = total_hours ["NDA", "Archiving"] (fun _ => []) 3 "Easy" :=
  total_hours_perm_invariant PROJECT_STEPS.reverse ["NDA", "Archiving"] (fun _ => []) 3 "Easy"
    (List.reverse_perm PROJECT_STEPS)

/-- C9: every multiplier table shipped with the program defines all three
tiers, so for every step in the fixed list (and for the shared substep
formula) the lookup performed during cost evaluation succeeds for every
valid tier and any sample count — the failure branch is unreachable on the
shipped data. -/
theorem shipped_multiplier_tables_total (n : ℤ) (c : String) (hc : c ∈ TIERS) :
    (∀ p ∈ PROJECT_STEPS, (calculate_hours p.2 n c).isSome) ∧
      (calculate_hours SUBSTEP_CONFIG n c).isSome := by
  obtain ⟨h1, h2⟩ := shipped_lookup_isSome c hc
  exact ⟨fun p hp => calculate_hours_isSome p.2 n c (h1 p hp),
    calculate_hours_isSome SUBSTEP_CONFIG n c h2⟩

/-- C9 witness: at 7 samples, complexity High, every step's cost and the
substep cost evaluate successfully. -/
theorem shipped_multiplier_tables_total_witness :
    (∀ p ∈ PROJECT_STEPS, (calculate_hours p.2 7 "High").isSome) ∧
      (calculate_hours SUBSTEP_CONFIG 7 "High").isSome :=
  shipped_multiplier_tables_total 7 "High" (by decide)

/-! Monotonicity of the total in the selection (claim C10) -/

/-- Nonnegativity of the numbers a configuration resolves to: base hours,
per-sample hours, and every value of its resolved multiplier table. -/
def ConfigNonneg (config : Config) : Prop :=
  0 ≤ cfgBase config ∧ 0 ≤ cfgPerSample config ∧ ∀ q ∈ cfgMults config, 0 ≤ q.2

/-- All shipped configurations carry only nonnegative numbers. -/
theorem shipped_configs_nonneg :
    (∀ p ∈ PROJECT_STEPS, ConfigNonneg p.2) ∧ ConfigNonneg SUBSTEP_CONFIG := by
  constructor
  · intro p hp
    simp only [PROJECT_STEPS, List.mem_cons, List.not_mem_nil, or_false] at hp
    rcases hp with rfl|rfl|rfl|rfl|rfl|rfl|rfl|rfl|rfl|rfl|rfl|rfl|rfl|rfl|rfl <;>
      norm_num [ConfigNonneg, cfgBase, cfgPerSample, cfgMults, Option.orElse,
        NDA_CONFIG, TEST_EXECUTION_CONFIG, DEFAULT_MULTS, COMPLEX_MULTS,
        List.forall_mem_cons]
  · norm_num [ConfigNonneg, cfgBase, cfgPerSample, cfgMults, Option.orElse,
      SUBSTEP_CONFIG, DEFAULT_MULTS, List.forall_mem_cons]

/-- The substep loop adds one substep cost per selected substep. -/
theorem substep_accum_eq (subs : List String) (n : ℤ) (c : String) (acc sc : ℚ)
    (h : calculate_hours SUBSTEP_CONFIG n c = some sc) :
    substep_accum subs n c acc = some (acc + subs.length * sc) := by
  induction subs generalizing acc with
  | nil => simp [substep_accum]
  | cons s rest ih =>
    simp only [substep_accum, h, ih]
    congr 1
    simp only [List.length_cons]
    push_cast
    ring

/-- Enlarging the selected substep set can only enlarge the filtered
selection of a step's own substeps. -/
theorem selected_substeps_sublist (config : Config) (ch1 ch2 : List String)
    (h : ch1 ⊆ ch2) :
    (selected_substeps config ch1).Sublist (selected_substeps config ch2) := by
  unfold selected_substeps
  cases config.substeps with
  | none => exact List.Sublist.refl _
  | some l =>
    by_cases hl : l = []
    · simp [hl]
    · simp only [if_neg hl]
      exact List.monotone_filter_right l
        (fun a ha => List.elem_iff.mpr (h (List.elem_iff.mp ha)))

/-- One step's contribution to the total is defined, nonnegative, and
monotone in the selection, for a configuration with nonnegative numbers
whose multiplier lookup succeeds. -/
theorem step_total_mono (p : String × Config) (n : ℤ) (c : String)
    (sel1 sel2 : List String) (sub1 sub2 : String → List String)
    (hn : 1 ≤ n) (hcfg : ConfigNonneg p.2) (hlk : ((cfgMults p.2).lookup c).isSome)
    (hsub : ConfigNonneg SUBSTEP_CONFIG) (hslk : ((cfgMults SUBSTEP_CONFIG).lookup c).isSome)
    (hsel : sel1 ⊆ sel2) (hss : ∀ k, sub1 k ⊆ sub2 k) :
    ∃ v1 v2, step_total sel1 sub1 n c p = some v1 ∧ step_total sel2 sub2 n c p = some v2 ∧
      0 ≤ v1 ∧ v1 ≤ v2 := by
  obtain ⟨m, hm⟩ := Option.isSome_iff_exists.mp hlk
  obtain ⟨ms, hms⟩ := Option.isSome_iff_exists.mp hslk
  have hcalc := calculate_hours_eq p.2 n c m hm
  have hscalc := calculate_hours_eq SUBSTEP_CONFIG n c ms hms
  have hn0 : (0:ℚ) ≤ (n:ℚ) := by exact_mod_cast le_trans zero_le_one hn
  have hest0 : 0 ≤ (cfgBase p.2 + cfgPerSample p.2 * (n:ℚ)) * m :=
    mul_nonneg (add_nonneg hcfg.1 (mul_nonneg hcfg.2.1 hn0))
      (hcfg.2.2 (c, m) (mem_of_lookup_some hm))
  have hsc0 : 0 ≤ (cfgBase SUBSTEP_CONFIG + cfgPerSample SUBSTEP_CONFIG * (n:ℚ)) * ms :=
    mul_nonneg (add_nonneg hsub.1 (mul_nonneg hsub.2.1 hn0))
      (hsub.2.2 (c, ms) (mem_of_lookup_some hms))
  by_cases h1 : p.1 ∈ sel1
  · have h2 : p.1 ∈ sel2 := hsel h1
    refine ⟨(cfgBase p.2 + cfgPerSample p.2 * (n:ℚ)) * m
        + (selected_substeps p.2 (sub1 p.1)).length
          * ((cfgBase SUBSTEP_CONFIG + cfgPerSample SUBSTEP_CONFIG * (n:ℚ)) * ms),
      (cfgBase p.2 + cfgPerSample p.2 * (n:ℚ)) * m
        + (selected_substeps p.2 (sub2 p.1)).length
          * ((cfgBase SUBSTEP_CONFIG + cfgPerSample SUBSTEP_CONFIG * (n:ℚ)) * ms),
      ?_, ?_, ?_, ?_⟩
    · simp only [step_total, hcalc, if_pos h1]
      exact substep_accum_eq _ n c _ _ hscalc
    · simp only [step_total, hcalc, if_pos h2]
      exact substep_accum_eq _ n c _ _ hscalc
    · exact add_nonneg hest0 (mul_nonneg (Nat.cast_nonneg _) hsc0)
    · refine add_le_add_left (mul_le_mul_of_nonneg_right ?_ hsc0) _
      exact_mod_cast (selected_substeps_sublist p.2 (sub1 p.1) (sub2 p.1) (hss p.1)).length_le
  · by_cases h2 : p.1 ∈ sel2
    · refine ⟨0, (cfgBase p.2 + cfgPerSample p.2 * (n:ℚ)) * m
          + (selected_substeps p.2 (sub2 p.1)).length
            * ((cfgBase SUBSTEP_CONFIG + cfgPerSample SUBSTEP_CONFIG * (n:ℚ)) * ms),
        ?_, ?_, le_refl 0, ?_⟩
      · simp only [step_total, hcalc, if_neg h1]
      · simp only [step_total, hcalc, if_pos h2]
        exact substep_accum_eq _ n c _ _ hscalc
      · exact add_nonneg hest0 (mul_nonneg (Nat.cast_nonneg _) hsc0)
    · exact ⟨0, 0, by simp only [step_total, hcalc, if_neg h1],
        by simp only [step_total, hcalc, if_neg h2], le_refl 0, le_refl 0⟩

/-- The accumulated total over any list of well-formed steps is defined,
nonnegative, and monotone in the selection. -/
theorem total_hours_over_mono (steps : List (String × Config)) (n : ℤ) (c : String)
    (sel1 sel2 : List String) (sub1 sub2 : String → List String)
    (hn : 1 ≤ n) (hgood : ∀ p ∈ steps, ConfigNonneg p.2 ∧ ((cfgMults p.2).lookup c).isSome)
    (hsub : ConfigNonneg SUBSTEP_CONFIG) (hslk : ((cfgMults SUBSTEP_CONFIG).lookup c).isSome)
    (hsel : sel1 ⊆ sel2) (hss : ∀ k, sub1 k ⊆ sub2 k) :
    ∃ t1 t2, total_hours_over steps sel1 sub1 n c = some t1 ∧
      total_hours_over steps sel2 sub2 n c = some t2 ∧ 0 ≤ t1 ∧ t1 ≤ t2 := by
  induction steps with
  | nil => exact ⟨0, 0, rfl, rfl, le_refl 0, le_refl 0⟩
  | cons p rest ih =>
    obtain ⟨v1, v2, hv1, hv2, hv10, hv12⟩ := step_total_mono p n c sel1 sel2 sub1 sub2 hn
      (hgood p (List.mem_cons_self p rest)).1 (hgood p (List.mem_cons_self p rest)).2
      hsub hslk hsel hss
    obtain ⟨t1, t2, ht1, ht2, ht10, ht12⟩ := ih fun q hq => hgood q (List.mem_cons_of_mem _ hq)
    exact ⟨v1 + t1, v2 + t2, by simp [total_hours_over, hv1, ht1],
      by simp [total_hours_over, hv2, ht2], add_nonneg hv10 ht10, add_le_add hv12 ht12⟩

/-- C10: on the shipped configuration, for every sample count of at least 1
and valid complexity tier, enlarging the set of selected steps or any
step's selected-substep set never decreases the computed total (and both
totals are defined and nonnegative). -/
theorem total_hours_selection_monotone (n : ℤ) (c : String) (sel1 sel2 : List String)
    (sub1 sub2 : String → List String) (hn : 1 ≤ n) (hc : c ∈ TIERS)
    (hsel : sel1 ⊆ sel2) (hss : ∀ k, sub1 k ⊆ sub2 k) :
    ∃ t1 t2, total_hours sel1 sub1 n c = some t1 ∧ total_hours sel2 sub2 n c = some t2 ∧
      0 ≤ t1 ∧ t1 ≤ t2 :=
  total_hours_over_mono PROJECT_STEPS n c sel1 sel2 sub1 sub2 hn
    (fun p hp => ⟨shipped_configs_nonneg.1 p hp, (shipped_lookup_isSome c hc).1 p hp⟩)
    shipped_configs_nonneg.2 (shipped_lookup_isSome c hc).2 hsel hss

/-- C10 witness: going from nothing selected to "Test Execution" with all
its substeps selected, at 2 samples and complexity Medium, does not
decrease the total. -/
theorem total_hours_selection_monotone_witness :
    ∃ t1 t2, total_hours [] (fun _ => []) 2 "Medium" = some t1 ∧
      total_hours ["Test Execution"] (fun _ => EXECUTION_SUBSTEPS) 2 "Medium" = some t2 ∧
      0 ≤ t1 ∧ t1 ≤ t2 :=
  total_hours_selection_monotone 2 "Medium" [] ["Test Execution"]
    (fun _ => []) (fun _ => EXECUTION_SUBSTEPS)
    (by decide) (by decide) (List.nil_subset _) (fun k => List.nil_subset _)
